import Mathlib

/-!
Verification of the Pillow weighted composite scoring engine.

This file shallowly embeds the scoring core of the repository:
* `frontend/src/data/neighborhoods.ts` — factor keys, selections,
  `isFactorEnabled`, `calculatePillowIndex`, `getScoreColor`;
* `frontend/src/pages/MapPage.tsx` — `buildColorExpr` weight normalization and
  base-score expression, and the hover-popup composite;
* `frontend/src/components/CensusBlockPanel.tsx` — the panel score computation
  together with the click-handler conversion that feeds it;
* the FilterSidebar variant holding `toggleSelection` (selection mutator);
* the earlier dataset module variant of `calculatePillowIndex` /
  `getScoreColor` and the map-page variant's `pillowIndexToHex` heat gradient.

JS numbers are modelled as rationals (`ℚ`); `Math.round` as `⌊x + 1/2⌋`
(round half toward positive infinity, which is what JS does); missing or
non-numeric feature properties as `Option ℚ` with `none` for absent values.
-/

namespace Neighborhoods

/-- The fixed factor set: the keys of the `scores` block of `NeighborhoodData`
and of the `Weights` interface in `data/neighborhoods.ts`. -/
inductive ScoreFactor
  | price
  | walkability
  | traffic
  | transit
  | environmentalRisks
  | noisePollution
  | airQuality
  deriving DecidableEq, Repr

/-- `Record<AffordabilityOption, boolean>` with `AffordabilityOption = "trueCost"`. -/
structure AffordabilitySelections where
  trueCost : Bool
  deriving DecidableEq, Repr, Fintype

/-- `Record<LivabilityOption, boolean>`. -/
structure LivabilitySelections where
  walkability : Bool
  transit : Bool
  jobOpenings : Bool
  deriving DecidableEq, Repr, Fintype

/-- `Record<EnvironmentalOption, boolean>`. -/
structure EnvironmentalSelections where
  floodRisk : Bool
  earthquakeRisk : Bool
  wildfireRisk : Bool
  airQuality : Bool
  noise : Bool
  deriving DecidableEq, Repr, Fintype

/-- The `FactorSelections` type of `data/neighborhoods.ts`. -/
structure FactorSelections where
  affordability : AffordabilitySelections
  livability : LivabilitySelections
  environmental : EnvironmentalSelections
  deriving DecidableEq, Repr, Fintype

/-- `DEFAULT_SELECTIONS`: every toggle on. -/
def DEFAULT_SELECTIONS : FactorSelections :=
  ⟨⟨true⟩, ⟨true, true, true⟩, ⟨true, true, true, true, true⟩⟩

/-- `isFactorEnabled` from `data/neighborhoods.ts`: which selection toggles gate
each score factor.  `traffic` is not exposed in the dropdown and is always
enabled; `environmentalRisks` is enabled iff any of the three risk toggles is on. -/
def isFactorEnabled (factor : ScoreFactor) (s : FactorSelections) : Bool :=
  match factor with
  | .price => s.affordability.trueCost
  | .walkability => s.livability.walkability
  | .transit => s.livability.transit
  | .traffic => true
  | .airQuality => s.environmental.airQuality
  | .noisePollution => s.environmental.noise
  | .environmentalRisks =>
      s.environmental.floodRisk || s.environmental.earthquakeRisk ||
        s.environmental.wildfireRisk

/-- The `scores` block of `NeighborhoodData` (0–100 scale). -/
structure Scores where
  price : ℚ
  walkability : ℚ
  traffic : ℚ
  transit : ℚ
  environmentalRisks : ℚ
  noisePollution : ℚ
  airQuality : ℚ
  deriving DecidableEq, Repr

/-- The `Weights` interface: one slider value per factor. -/
structure Weights where
  price : ℚ
  walkability : ℚ
  traffic : ℚ
  transit : ℚ
  environmentalRisks : ℚ
  noisePollution : ℚ
  airQuality : ℚ
  deriving DecidableEq, Repr

/-- `DEFAULT_WEIGHTS`: every slider at 3. -/
def DEFAULT_WEIGHTS : Weights := ⟨3, 3, 3, 3, 3, 3, 3⟩

/-- Field lookup `weights[factor]`. -/
def weightOf (w : Weights) : ScoreFactor → ℚ
  | .price => w.price
  | .walkability => w.walkability
  | .traffic => w.traffic
  | .transit => w.transit
  | .environmentalRisks => w.environmentalRisks
  | .noisePollution => w.noisePollution
  | .airQuality => w.airQuality

/-- Field lookup `scores[factor]`. -/
def scoreOf (sc : Scores) : ScoreFactor → ℚ
  | .price => sc.price
  | .walkability => sc.walkability
  | .traffic => sc.traffic
  | .transit => sc.transit
  | .environmentalRisks => sc.environmentalRisks
  | .noisePollution => sc.noisePollution
  | .airQuality => sc.airQuality

/-- `Object.keys(weights)` in the declaration order of the `Weights` interface. -/
def factorKeys : List ScoreFactor :=
  [.price, .walkability, .traffic, .transit, .environmentalRisks,
    .noisePollution, .airQuality]

/-- JS `Math.round`: round half toward positive infinity, `⌊x + 1/2⌋`. -/
def jsRound (x : ℚ) : ℤ := ⌊x + 1/2⌋

/-- One iteration of the accumulation loop in `calculatePillowIndex`:
skip a factor when its toggle disables it (`continue`), skip when its weight is
`<= 0` (`continue`), otherwise accumulate `totalWeight` and `weightedSum`. -/
def pillowStep (scores : Scores) (weights : Weights) (selections : FactorSelections)
    (acc : ℚ × ℚ) (factor : ScoreFactor) : ℚ × ℚ :=
  if isFactorEnabled factor selections = false then acc
  else if weightOf weights factor ≤ 0 then acc
  else (acc.1 + weightOf weights factor,
        acc.2 + scoreOf scores factor * weightOf weights factor)

/-- `calculatePillowIndex` with the iterated key list made explicit (the TS loop
iterates over `Object.keys(weights)`; removing a factor from the weight map
removes it from this list).  Returns `50` when `totalWeight` ends at `0`,
otherwise `Math.round(weightedSum / totalWeight)`. -/
def calculatePillowIndexOn (keys : List ScoreFactor) (scores : Scores)
    (weights : Weights) (selections : FactorSelections) : ℚ :=
  let acc := keys.foldl (pillowStep scores weights selections) (0, 0)
  if acc.1 = 0 then 50 else ((jsRound (acc.2 / acc.1) : ℤ) : ℚ)

/-- `calculatePillowIndex(scores, weights, selections = DEFAULT_SELECTIONS)`
from `data/neighborhoods.ts` (the selections default is supplied explicitly). -/
def calculatePillowIndex (scores : Scores) (weights : Weights)
    (selections : FactorSelections) : ℚ :=
  calculatePillowIndexOn factorKeys scores weights selections

/-- Contribution of one factor to `totalWeight`: its weight when the factor is
enabled and its weight is strictly positive, else `0`. -/
def contribW (weights : Weights) (selections : FactorSelections)
    (f : ScoreFactor) : ℚ :=
  if isFactorEnabled f selections = true ∧ 0 < weightOf weights f
  then weightOf weights f else 0

/-- Contribution of one factor to `weightedSum`. -/
def contribS (scores : Scores) (weights : Weights) (selections : FactorSelections)
    (f : ScoreFactor) : ℚ :=
  if isFactorEnabled f selections = true ∧ 0 < weightOf weights f
  then scoreOf scores f * weightOf weights f else 0

/-- The `totalWeight` accumulated over a key list. -/
def totalWeightOn (keys : List ScoreFactor) (weights : Weights)
    (selections : FactorSelections) : ℚ :=
  (keys.map (contribW weights selections)).sum

/-- The `weightedSum` accumulated over a key list. -/
def weightedSumOn (keys : List ScoreFactor) (scores : Scores) (weights : Weights)
    (selections : FactorSelections) : ℚ :=
  (keys.map (contribS scores weights selections)).sum

/-- Uniform scaling of every slider weight by the same constant `c` (the
transformation quantified over in the scale-invariance property). -/
def scaleWeights (c : ℚ) (w : Weights) : Weights :=
  ⟨c * w.price, c * w.walkability, c * w.traffic, c * w.transit,
    c * w.environmentalRisks, c * w.noisePollution, c * w.airQuality⟩

end Neighborhoods

/-- Color channels of an `rgba(r, g, b, a)` string: rounded integer red, green
and blue channels plus the alpha channel. -/
structure RGBA where
  r : ℤ
  g : ℤ
  b : ℤ
  a : ℚ
  deriving DecidableEq, Repr

namespace Neighborhoods

/-- `getScoreColor` from `data/neighborhoods.ts`: a single linear thermal ramp
(clamped `t = score/100`), alpha fixed at `0.75`; the TS renders these channel
values into an `rgba(...)` string. -/
def getScoreColor (score : ℚ) : RGBA :=
  let t := max 0 (min 1 (score / 100))
  ⟨jsRound (255 * (1 - t)), jsRound (60 + 195 * t), jsRound (40 * (1 - t)), 3/4⟩

end Neighborhoods

namespace CensusBlockPanel

open Neighborhoods

/-- The numeric fields of `CensusBlockData` from `CensusBlockPanel.tsx`
(the `geoid` string and the click coordinates are irrelevant to the score and
omitted).  All fields are on a 0–1 scale. -/
structure CensusBlockData where
  walkability : ℚ
  transit : ℚ
  vmt : ℚ
  composite : ℚ
  price : ℚ
  floodSafe : ℚ
  quakeSafe : ℚ
  fireSafe : ℚ
  airSafe : ℚ
  deriving DecidableEq, Repr

/-- `weights.price / 5` (no affordability toggle is consulted). -/
def wPrice (w : Weights) : ℚ := w.price / 5

def wWalk (w : Weights) (s : FactorSelections) : ℚ :=
  if s.livability.walkability = true then w.walkability / 5 else 0

def wTransit (w : Weights) (s : FactorSelections) : ℚ :=
  if s.livability.transit = true then w.transit / 5 else 0

def wTraffic (w : Weights) : ℚ := w.traffic / 5

/-- `envTotal = weights.environmentalRisks / 5` (no zero-guard in the panel). -/
def envTotal (w : Weights) : ℚ := w.environmentalRisks / 5

/-- `[floodRisk, earthquakeRisk, wildfireRisk, airQuality].filter(Boolean).length`. -/
def envSelectedCount (s : FactorSelections) : ℕ :=
  ([s.environmental.floodRisk, s.environmental.earthquakeRisk,
    s.environmental.wildfireRisk, s.environmental.airQuality].filter
      (fun b => b)).length

/-- `envCount = [...].filter(Boolean).length || 1`. -/
def envCount (s : FactorSelections) : ℕ :=
  if envSelectedCount s = 0 then 1 else envSelectedCount s

def wFlood (w : Weights) (s : FactorSelections) : ℚ :=
  if s.environmental.floodRisk = true then envTotal w / (envCount s : ℚ) else 0

def wQuake (w : Weights) (s : FactorSelections) : ℚ :=
  if s.environmental.earthquakeRisk = true then envTotal w / (envCount s : ℚ) else 0

def wFire (w : Weights) (s : FactorSelections) : ℚ :=
  if s.environmental.wildfireRisk = true then envTotal w / (envCount s : ℚ) else 0

def wAir (w : Weights) (s : FactorSelections) : ℚ :=
  if s.environmental.airQuality = true then envTotal w / (envCount s : ℚ) else 0

def actualEnv (w : Weights) (s : FactorSelections) : ℚ :=
  wFlood w s + wQuake w s + wFire w s + wAir w s

def denom (w : Weights) (s : FactorSelections) : ℚ :=
  wPrice w + wWalk w s + wTransit w s + wTraffic w + actualEnv w s

/-- `rawScore`: the weighted panel score; falls back to the block's precomputed
`composite` when the denominator is `0`. -/
def rawScore (w : Weights) (s : FactorSelections) (b : CensusBlockData) : ℚ :=
  if denom w s = 0 then b.composite
  else
    (wPrice w * b.price + wWalk w s * b.walkability + wTransit w s * b.transit +
      wTraffic w * b.vmt + wFlood w s * b.floodSafe + wQuake w s * b.quakeSafe +
      wFire w s * b.fireSafe + wAir w s * b.airSafe) / denom w s

/-- `locusIndex = Math.round(rawScore * 100)`: the displayed 0–100 index. -/
def locusIndex (w : Weights) (s : FactorSelections) (b : CensusBlockData) : ℤ :=
  jsRound (rawScore w s b * 100)

end CensusBlockPanel

namespace MapPage

open Neighborhoods

/-- The enriched properties of a census-block feature in `MapPage.tsx`; `none`
models a property that is `null`, absent, or non-numeric (so that both the
Mapbox `coalesce`/`to-number` fallback and the hover handler's `n` helper
substitute their default). -/
structure BlockProps where
  score_price : Option ℚ
  score_walkability : Option ℚ
  score_transit : Option ℚ
  score_vmt : Option ℚ
  score_flood_safe : Option ℚ
  score_quake_safe : Option ℚ
  score_wildfire_safe : Option ℚ
  score_air_safe : Option ℚ
  composite : Option ℚ
  deriving DecidableEq, Repr

/-- The hover handler's `n(v, def)` (a number passes through, anything else —
including `null`/absent — yields the default), and the outer
`["coalesce", …, fallback]` wrapper where its argument can be absent. -/
def coalesce (v : Option ℚ) (fallback : ℚ) : ℚ := v.getD fallback

/-- `["to-number", ["get", prop]]` in a Mapbox expression: `get` yields `null`
for an absent property (and the enrichment code writes `null` for missing
tract data), and `to-number` converts `null` to `0` — it does not error — so a
missing or null score becomes `0`.  The `["coalesce", …, 0.5]` wrapper around
this in `buildColorExpr` would only fire on a `to-number` evaluation error,
which `null` never produces, so its `0.5` fallback is dead for missing/null
scores. -/
def toNumber (v : Option ℚ) : ℚ := v.getD 0

/-- `SCORE_CUTOFF = 0.2`: below this base score the fill is fully transparent. -/
def SCORE_CUTOFF : ℚ := 1/5

/-- `buildColorExpr` weight normalization: slider scaled to 0..1, excluded
entirely when the slider is 0 (or the gating toggle is off). -/
def wPrice (w : Weights) : ℚ := if 0 < w.price then w.price / 5 else 0

def wWalk (w : Weights) (s : FactorSelections) : ℚ :=
  if s.livability.walkability = true ∧ 0 < w.walkability then w.walkability / 5 else 0

def wTransit (w : Weights) (s : FactorSelections) : ℚ :=
  if s.livability.transit = true ∧ 0 < w.transit then w.transit / 5 else 0

def wTraffic (w : Weights) : ℚ := if 0 < w.traffic then w.traffic / 5 else 0

/-- `envTotal = weights.environmentalRisks > 0 ? weights.environmentalRisks / 5 : 0`. -/
def envTotal (w : Weights) : ℚ :=
  if 0 < w.environmentalRisks then w.environmentalRisks / 5 else 0

/-- `envSelectedCount = [floodRisk, earthquakeRisk, wildfireRisk, airQuality].filter(Boolean).length`. -/
def envSelectedCount (s : FactorSelections) : ℕ :=
  ([s.environmental.floodRisk, s.environmental.earthquakeRisk,
    s.environmental.wildfireRisk, s.environmental.airQuality].filter
      (fun b => b)).length

/-- `envCount = envTotal > 0 && envSelectedCount > 0 ? envSelectedCount : 1`. -/
def envCount (w : Weights) (s : FactorSelections) : ℕ :=
  if 0 < envTotal w ∧ 0 < envSelectedCount s then envSelectedCount s else 1

def wFlood (w : Weights) (s : FactorSelections) : ℚ :=
  if 0 < envTotal w ∧ s.environmental.floodRisk = true
  then envTotal w / (envCount w s : ℚ) else 0

def wQuake (w : Weights) (s : FactorSelections) : ℚ :=
  if 0 < envTotal w ∧ s.environmental.earthquakeRisk = true
  then envTotal w / (envCount w s : ℚ) else 0

def wFire (w : Weights) (s : FactorSelections) : ℚ :=
  if 0 < envTotal w ∧ s.environmental.wildfireRisk = true
  then envTotal w / (envCount w s : ℚ) else 0

def wAir (w : Weights) (s : FactorSelections) : ℚ :=
  if 0 < envTotal w ∧ s.environmental.airQuality = true
  then envTotal w / (envCount w s : ℚ) else 0

def denom (w : Weights) (s : FactorSelections) : ℚ :=
  wPrice w + wWalk w s + wTransit w s + wTraffic w +
    wFlood w s + wQuake w s + wFire w s + wAir w s

/-- The `baseScoreExpr` of `buildColorExpr` evaluated on one feature: when
`denom == 0` it falls back to `coalesce(to-number(composite), 0)` (equal to
`to-number(null) = 0` when the property is missing), otherwise it is the
weighted average where each score goes through `to-number`, so a missing or
null score contributes `0` — the written `0.5` coalesce fallback is
unreachable for missing/null values (see `toNumber`). -/
def baseScore (w : Weights) (s : FactorSelections) (p : BlockProps) : ℚ :=
  if denom w s = 0 then coalesce p.composite 0
  else
    (wPrice w * toNumber p.score_price +
      wWalk w s * toNumber p.score_walkability +
      wTransit w s * toNumber p.score_transit +
      wTraffic w * toNumber p.score_vmt +
      wFlood w s * toNumber p.score_flood_safe +
      wQuake w s * toNumber p.score_quake_safe +
      wFire w s * toNumber p.score_wildfire_safe +
      wAir w s * toNumber p.score_air_safe) / denom w s

/-- Hover-popup weights (the `mousemove` handler): same shape as the census
panel — the slider is *not* gated on being positive here. -/
def hover_wP (w : Weights) : ℚ := w.price / 5

def hover_wWk (w : Weights) (s : FactorSelections) : ℚ :=
  if s.livability.walkability = true then w.walkability / 5 else 0

def hover_wTr (w : Weights) (s : FactorSelections) : ℚ :=
  if s.livability.transit = true then w.transit / 5 else 0

def hover_wTf (w : Weights) : ℚ := w.traffic / 5

def hover_envTotal (w : Weights) : ℚ := w.environmentalRisks / 5

/-- `envCount = [...].filter(Boolean).length || 1` in the hover handler. -/
def hover_envCount (s : FactorSelections) : ℕ :=
  if envSelectedCount s = 0 then 1 else envSelectedCount s

def hover_wFl (w : Weights) (s : FactorSelections) : ℚ :=
  if s.environmental.floodRisk = true
  then hover_envTotal w / (hover_envCount s : ℚ) else 0

def hover_wQk (w : Weights) (s : FactorSelections) : ℚ :=
  if s.environmental.earthquakeRisk = true
  then hover_envTotal w / (hover_envCount s : ℚ) else 0

def hover_wFr (w : Weights) (s : FactorSelections) : ℚ :=
  if s.environmental.wildfireRisk = true
  then hover_envTotal w / (hover_envCount s : ℚ) else 0

def hover_wAr (w : Weights) (s : FactorSelections) : ℚ :=
  if s.environmental.airQuality = true
  then hover_envTotal w / (hover_envCount s : ℚ) else 0

def dyn_denom (w : Weights) (s : FactorSelections) : ℚ :=
  hover_wP w + hover_wWk w s + hover_wTr w s + hover_wTf w +
    hover_wFl w s + hover_wQk w s + hover_wFr w s + hover_wAr w s

/-- The hover popup's `dynamicComposite`: falls back to `n(p.composite)`
(default `0.5`) when `dyn_denom === 0`. -/
def dynamicComposite (w : Weights) (s : FactorSelections) (p : BlockProps) : ℚ :=
  if dyn_denom w s = 0 then coalesce p.composite (1/2)
  else
    (hover_wP w * coalesce p.score_price (1/2) +
      hover_wWk w s * coalesce p.score_walkability (1/2) +
      hover_wTr w s * coalesce p.score_transit (1/2) +
      hover_wTf w * coalesce p.score_vmt (1/2) +
      hover_wFl w s * coalesce p.score_flood_safe (1/2) +
      hover_wQk w s * coalesce p.score_quake_safe (1/2) +
      hover_wFr w s * coalesce p.score_wildfire_safe (1/2) +
      hover_wAr w s * coalesce p.score_air_safe (1/2)) / dyn_denom w s

/-- The click handler's `num`: a number passes through, anything else becomes `0`. -/
def num (v : Option ℚ) : ℚ := v.getD 0

/-- The click handler's `numDef`: a number passes through, anything else `0.5`. -/
def numDef (v : Option ℚ) : ℚ := v.getD (1/2)

/-- The click handler's construction of the `CensusBlockData` passed to the
panel: `walkability`, `transit`, `vmt` and `composite` use `num` (default `0`),
while `price` and the four safety scores use `numDef` (default `0.5`). -/
def toCensusBlockData (p : BlockProps) : CensusBlockPanel.CensusBlockData :=
  { walkability := num p.score_walkability
    transit := num p.score_transit
    vmt := num p.score_vmt
    composite := num p.composite
    price := numDef p.score_price
    floodSafe := numDef p.score_flood_safe
    quakeSafe := numDef p.score_quake_safe
    fireSafe := numDef p.score_wildfire_safe
    airSafe := numDef p.score_air_safe }

end MapPage

namespace FilterSidebar

open Neighborhoods

/-- The three selection categories of the sidebar dropdowns. -/
inductive SelectionCategory
  | affordability
  | livability
  | environmental
  deriving DecidableEq, Repr

/-- The nine toggle keys across the three categories. -/
inductive ToggleOption
  | trueCost
  | walkability
  | transit
  | jobOpenings
  | floodRisk
  | earthquakeRisk
  | wildfireRisk
  | airQuality
  | noise
  deriving DecidableEq, Repr, Fintype

/-- Which category each toggle key belongs to. -/
def categoryOf : ToggleOption → SelectionCategory
  | .trueCost => .affordability
  | .walkability => .livability
  | .transit => .livability
  | .jobOpenings => .livability
  | .floodRisk => .environmental
  | .earthquakeRisk => .environmental
  | .wildfireRisk => .environmental
  | .airQuality => .environmental
  | .noise => .environmental

/-- `next[category][key]` read access. -/
def getToggle (s : FactorSelections) : ToggleOption → Bool
  | .trueCost => s.affordability.trueCost
  | .walkability => s.livability.walkability
  | .transit => s.livability.transit
  | .jobOpenings => s.livability.jobOpenings
  | .floodRisk => s.environmental.floodRisk
  | .earthquakeRisk => s.environmental.earthquakeRisk
  | .wildfireRisk => s.environmental.wildfireRisk
  | .airQuality => s.environmental.airQuality
  | .noise => s.environmental.noise

/-- `next[category][key] = v` write access. -/
def setToggle (s : FactorSelections) : ToggleOption → Bool → FactorSelections
  | .trueCost, v => { s with affordability.trueCost := v }
  | .walkability, v => { s with livability.walkability := v }
  | .transit, v => { s with livability.transit := v }
  | .jobOpenings, v => { s with livability.jobOpenings := v }
  | .floodRisk, v => { s with environmental.floodRisk := v }
  | .earthquakeRisk, v => { s with environmental.earthquakeRisk := v }
  | .wildfireRisk, v => { s with environmental.wildfireRisk := v }
  | .airQuality, v => { s with environmental.airQuality := v }
  | .noise, v => { s with environmental.noise := v }

/-- `countSelected(next.livability)`: `Object.values(...).filter(Boolean).length`. -/
def countSelectedLivability (s : FactorSelections) : ℕ :=
  ([s.livability.walkability, s.livability.transit,
    s.livability.jobOpenings].filter (fun b => b)).length

/-- `countSelected(next.environmental)`. -/
def countSelectedEnvironmental (s : FactorSelections) : ℕ :=
  ([s.environmental.floodRisk, s.environmental.earthquakeRisk,
    s.environmental.wildfireRisk, s.environmental.airQuality,
    s.environmental.noise].filter (fun b => b)).length

/-- `toggleSelection(category, key)` from the sidebar: a no-op when the toggle
is currently on and is the last enabled toggle of the livability or
environmental category ("enforce at least one selected"); otherwise flips the
toggle. -/
def toggleSelection (s : FactorSelections) (k : ToggleOption) : FactorSelections :=
  let currently := getToggle s k
  if categoryOf k = .livability ∧ currently = true ∧ countSelectedLivability s = 1
  then s
  else if categoryOf k = .environmental ∧ currently = true ∧
      countSelectedEnvironmental s = 1
  then s
  else setToggle s k (!currently)

/-- Selection states reachable from `DEFAULT_SELECTIONS` through the sidebar's
mutator (the only way the UI mutates selections). -/
inductive Reachable : FactorSelections → Prop
  | start : Reachable DEFAULT_SELECTIONS
  | step (s : FactorSelections) (k : ToggleOption) :
      Reachable s → Reachable (toggleSelection s k)

end FilterSidebar

namespace Part005

open Neighborhoods

/-- The earlier dataset-module variant of `calculatePillowIndex`: no selection
toggles, and every factor's weight is accumulated (no `w <= 0` skip — a zero
weight simply contributes nothing to either sum). -/
def calculatePillowIndex (scores : Scores) (weights : Weights) : ℚ :=
  let acc := factorKeys.foldl
    (fun acc factor =>
      (acc.1 + weightOf weights factor,
        acc.2 + scoreOf scores factor * weightOf weights factor)) (0, 0)
  if acc.1 = 0 then 50 else ((jsRound (acc.2 / acc.1) : ℤ) : ℚ)

/-- First branch of the earlier `getScoreColor` (score ≤ 30): deep purple ramp,
alpha `0.75`. -/
def seg1 (score : ℚ) : RGBA :=
  let t := score / 30
  ⟨jsRound (20 + t * 60), jsRound (0 + t * 10), jsRound (80 + t * 80), 3/4⟩

/-- Second branch (30 < score ≤ 50): violet→red ramp, alpha `0.75`. -/
def seg2 (score : ℚ) : RGBA :=
  let t := (score - 30) / 20
  ⟨jsRound (80 + t * 140), jsRound (10 + t * 20), jsRound (160 - t * 130), 3/4⟩

/-- Third branch (50 < score ≤ 70): red→orange ramp, alpha `0.75`. -/
def seg3 (score : ℚ) : RGBA :=
  let t := (score - 50) / 20
  ⟨jsRound (220 + t * 35), jsRound (30 + t * 150), jsRound (30 - t * 20), 3/4⟩

/-- Fourth branch (score > 70): orange→gold ramp, alpha `0.8`. -/
def seg4 (score : ℚ) : RGBA :=
  let t := (score - 70) / 30
  ⟨jsRound 255, jsRound (180 + t * 60), jsRound (10 + t * 140), 4/5⟩

/-- The earlier `getScoreColor`: four-piece thermal gradient. -/
def getScoreColor (score : ℚ) : RGBA :=
  if score ≤ 30 then seg1 score
  else if score ≤ 50 then seg2 score
  else if score ≤ 70 then seg3 score
  else seg4 score

end Part005

namespace Part008

open Neighborhoods

/-- `HEAT_STOPS`: the fixed `(score, [r, g, b])` gradient stops of
`pillowIndexToHex`. -/
def HEAT_STOPS : List (ℚ × ℤ × ℤ × ℤ) :=
  [(0, 20, 0, 80), (25, 80, 20, 160), (45, 208, 30, 40),
    (65, 224, 140, 20), (82, 255, 215, 0), (100, 255, 250, 224)]

/-- Linear interpolation between two adjacent stops, each channel rounded
(the TS then renders the three rounded channels as a `#rrggbb` hex string). -/
def stopInterp (s0 s1 : ℚ) (c0 c1 : ℤ × ℤ × ℤ) (s : ℚ) : ℤ × ℤ × ℤ :=
  let t := (s - s0) / (s1 - s0)
  (jsRound ((c0.1 : ℚ) + t * ((c1.1 : ℚ) - (c0.1 : ℚ))),
    jsRound ((c0.2.1 : ℚ) + t * ((c1.2.1 : ℚ) - (c0.2.1 : ℚ))),
    jsRound ((c0.2.2 : ℚ) + t * ((c1.2.2 : ℚ) - (c0.2.2 : ℚ))))

/-- The stop-scanning loop of `pillowIndexToHex`: find the first stop pair with
`s <= s1` and interpolate there; past the last pair return the final color. -/
def findStop : List (ℚ × ℤ × ℤ × ℤ) → ℚ → ℤ × ℤ × ℤ
  | (s0, c0) :: (s1, c1) :: rest, s =>
      if s ≤ s1 then stopInterp s0 s1 c0 c1 s else findStop ((s1, c1) :: rest) s
  | _, _ => (255, 250, 224)

/-- `pillowIndexToHex`: clamp the score to `[0, 100]`, then piecewise-linearly
interpolate across `HEAT_STOPS` (channel values of the emitted hex color). -/
def pillowIndexToHex (score : ℚ) : ℤ × ℤ × ℤ :=
  findStop HEAT_STOPS (max 0 (min 100 score))

end Part008

namespace Neighborhoods

lemma pillowStep_eq (scores : Scores) (weights : Weights)
    (selections : FactorSelections) (acc : ℚ × ℚ) (factor : ScoreFactor) :
    pillowStep scores weights selections acc factor =
      (acc.1 + contribW weights selections factor,
        acc.2 + contribS scores weights selections factor) := by
  unfold pillowStep contribW contribS
  by_cases he : isFactorEnabled factor selections = true
  · by_cases hw : weightOf weights factor ≤ 0
    · simp [he, hw, not_lt.mpr hw]
    · simp [he, hw, lt_of_not_le hw]
  · simp [he, Bool.not_eq_true (isFactorEnabled factor selections) ▸ he]

lemma foldl_pillowStep (scores : Scores) (weights : Weights)
    (selections : FactorSelections) :
    ∀ (keys : List ScoreFactor) (a b : ℚ),
      keys.foldl (pillowStep scores weights selections) (a, b) =
        (a + totalWeightOn keys weights selections,
          b + weightedSumOn keys scores weights selections) := by
  intro keys
  induction keys with
  | nil => intro a b; simp [totalWeightOn, weightedSumOn]
  | cons k t ih =>
      intro a b
      rw [List.foldl_cons, pillowStep_eq, ih]
      unfold totalWeightOn weightedSumOn
      simp only [List.map_cons, List.sum_cons]
      simp only [Prod.mk.injEq]
      constructor <;> ring

lemma calculatePillowIndexOn_eq (keys : List ScoreFactor) (scores : Scores)
    (weights : Weights) (selections : FactorSelections) :
    calculatePillowIndexOn keys scores weights selections =
      if totalWeightOn keys weights selections = 0 then 50
      else ((jsRound (weightedSumOn keys scores weights selections /
        totalWeightOn keys weights selections) : ℤ) : ℚ) := by
  unfold calculatePillowIndexOn
  rw [foldl_pillowStep]
  simp

lemma contribW_nonneg (weights : Weights) (selections : FactorSelections)
    (f : ScoreFactor) : 0 ≤ contribW weights selections f := by
  unfold contribW
  split
  · next h => exact le_of_lt h.2
  · exact le_refl 0

lemma totalWeight_nonneg (keys : List ScoreFactor) (weights : Weights)
    (selections : FactorSelections) : 0 ≤ totalWeightOn keys weights selections := by
  unfold totalWeightOn
  refine List.sum_nonneg ?_
  intro x hx
  obtain ⟨f, _, rfl⟩ := List.mem_map.mp hx
  exact contribW_nonneg weights selections f

lemma mem_factorKeys (f : ScoreFactor) : f ∈ factorKeys := by
  cases f <;> simp [factorKeys]

lemma contribW_le_totalWeight (keys : List ScoreFactor) (weights : Weights)
    (selections : FactorSelections) (f : ScoreFactor) (hf : f ∈ keys) :
    contribW weights selections f ≤ totalWeightOn keys weights selections := by
  unfold totalWeightOn
  refine List.single_le_sum ?_ _ (List.mem_map_of_mem _ hf)
  intro x hx
  obtain ⟨g, _, rfl⟩ := List.mem_map.mp hx
  exact contribW_nonneg weights selections g

lemma totalWeight_pos (weights : Weights) (selections : FactorSelections)
    (f : ScoreFactor) (he : isFactorEnabled f selections = true)
    (hw : 0 < weightOf weights f) :
    0 < totalWeightOn factorKeys weights selections := by
  have h1 : contribW weights selections f = weightOf weights f := by
    unfold contribW; rw [if_pos ⟨he, hw⟩]
  have h2 := contribW_le_totalWeight factorKeys weights selections f (mem_factorKeys f)
  rw [h1] at h2
  exact lt_of_lt_of_le hw h2

lemma weightedSum_nonneg (keys : List ScoreFactor) (scores : Scores)
    (weights : Weights) (selections : FactorSelections)
    (hs : ∀ f, 0 ≤ scoreOf scores f) :
    0 ≤ weightedSumOn keys scores weights selections := by
  unfold weightedSumOn
  refine List.sum_nonneg ?_
  intro x hx
  obtain ⟨f, _, rfl⟩ := List.mem_map.mp hx
  unfold contribS
  split
  · next h => exact mul_nonneg (hs f) (le_of_lt h.2)
  · exact le_refl 0

lemma weightedSum_le (keys : List ScoreFactor) (scores : Scores)
    (weights : Weights) (selections : FactorSelections)
    (hs : ∀ f, scoreOf scores f ≤ 100) :
    weightedSumOn keys scores weights selections ≤
      100 * totalWeightOn keys weights selections := by
  unfold weightedSumOn totalWeightOn
  rw [← List.sum_map_mul_left]
  refine List.sum_le_sum ?_
  intro f _
  unfold contribS contribW
  split
  · next h => exact mul_le_mul_of_nonneg_right (hs f) (le_of_lt h.2)
  · simp

lemma jsRound_nonneg (x : ℚ) (hx : 0 ≤ x) : 0 ≤ jsRound x := by
  unfold jsRound
  exact Int.floor_nonneg.mpr (by linarith)

lemma jsRound_le_100 (x : ℚ) (hx : x ≤ 100) : jsRound x ≤ 100 := by
  unfold jsRound
  have : (⌊x + 1/2⌋ : ℤ) < 101 := by
    rw [Int.floor_lt]
    push_cast
    linarith
  omega

end Neighborhoods

open Neighborhoods

/-- **C1.** For every factor-score map with each score in `[0, 100]` and every
integer weight map in `[0, 5]` with at least one enabled factor of positive
weight, `calculatePillowIndex` returns `round(weightedSum / totalWeight)`
clamped to `[0, 100]` (the code performs no clamp, but under these hypotheses
the rounded weighted average already lies in `[0, 100]`, so it equals its
clamp); in particular for scores `{walkability: 80, transit: 60, price: 40}`,
weights `{walkability: 5, transit: 5}`, all other weights `0`, under
`DEFAULT_SELECTIONS`, it returns `70`. -/
theorem C1_round_clamp_and_scenario1 :
    (∀ (scores : Scores) (weights : Weights) (selections : FactorSelections),
      (∀ f, 0 ≤ scoreOf scores f ∧ scoreOf scores f ≤ 100) →
      (∀ f, ∃ n : ℕ, weightOf weights f = (n : ℚ) ∧ n ≤ 5) →
      (∃ f, isFactorEnabled f selections = true ∧ 0 < weightOf weights f) →
      calculatePillowIndex scores weights selections =
        ((max 0 (min 100 (jsRound (weightedSumOn factorKeys scores weights selections /
          totalWeightOn factorKeys weights selections))) : ℤ) : ℚ)) ∧
    calculatePillowIndex ⟨40, 80, 0, 60, 0, 0, 0⟩ ⟨0, 5, 0, 5, 0, 0, 0⟩
      DEFAULT_SELECTIONS = 70 := by
  constructor
  · intro scores weights selections hs _hw ⟨f, he, hf⟩
    have htw : 0 < totalWeightOn factorKeys weights selections :=
      totalWeight_pos weights selections f he hf
    have hq0 : 0 ≤ weightedSumOn factorKeys scores weights selections /
        totalWeightOn factorKeys weights selections :=
      div_nonneg (weightedSum_nonneg _ _ _ _ fun g => (hs g).1) (le_of_lt htw)
    have hq100 : weightedSumOn factorKeys scores weights selections /
        totalWeightOn factorKeys weights selections ≤ 100 := by
      rw [div_le_iff₀ htw]
      have h := weightedSum_le factorKeys scores weights selections
        fun g => (hs g).2
      linarith
    have hr0 := jsRound_nonneg _ hq0
    have hr100 := jsRound_le_100 _ hq100
    rw [calculatePillowIndex, calculatePillowIndexOn_eq,
      if_neg (ne_of_gt htw)]
    rw [min_eq_right hr100, max_eq_right hr0]
  · rw [calculatePillowIndex, calculatePillowIndexOn_eq]
    norm_num [totalWeightOn, weightedSumOn, factorKeys, contribW, contribS,
      weightOf, scoreOf, isFactorEnabled, DEFAULT_SELECTIONS, jsRound]

/-- Witness for C1: the general statement applied at concrete scenario 1. -/
theorem C1_witness :
    calculatePillowIndex ⟨40, 80, 0, 60, 0, 0, 0⟩ ⟨0, 5, 0, 5, 0, 0, 0⟩
        DEFAULT_SELECTIONS =
      ((max 0 (min 100 (jsRound (weightedSumOn factorKeys ⟨40, 80, 0, 60, 0, 0, 0⟩
          ⟨0, 5, 0, 5, 0, 0, 0⟩ DEFAULT_SELECTIONS /
        totalWeightOn factorKeys ⟨0, 5, 0, 5, 0, 0, 0⟩ DEFAULT_SELECTIONS))) : ℤ) : ℚ) :=
  C1_round_clamp_and_scenario1.1 ⟨40, 80, 0, 60, 0, 0, 0⟩ ⟨0, 5, 0, 5, 0, 0, 0⟩
    DEFAULT_SELECTIONS
    (by intro f; cases f <;> constructor <;> norm_num [scoreOf])
    (by
      intro f
      cases f
      · exact ⟨0, by norm_num [weightOf], by norm_num⟩
      · exact ⟨5, by norm_num [weightOf], by norm_num⟩
      · exact ⟨0, by norm_num [weightOf], by norm_num⟩
      · exact ⟨5, by norm_num [weightOf], by norm_num⟩
      · exact ⟨0, by norm_num [weightOf], by norm_num⟩
      · exact ⟨0, by norm_num [weightOf], by norm_num⟩
      · exact ⟨0, by norm_num [weightOf], by norm_num⟩)
    ⟨.walkability, by decide, by norm_num [weightOf]⟩

/-- **C2.** For every factor-score map and every weight/selection state in
which no enabled factor has a strictly positive weight, `calculatePillowIndex`
returns exactly `50`, whatever the scores: the `totalWeight == 0` guard fires
before any division is performed. -/
theorem C2_zero_weight_neutral_50 :
    ∀ (scores : Scores) (weights : Weights) (selections : FactorSelections),
      (∀ f, isFactorEnabled f selections = true → weightOf weights f ≤ 0) →
      calculatePillowIndex scores weights selections = 50 := by
  intro scores weights selections h
  rw [calculatePillowIndex, calculatePillowIndexOn_eq]
  have htw : totalWeightOn factorKeys weights selections = 0 := by
    unfold totalWeightOn
    refine List.sum_eq_zero ?_
    intro x hx
    obtain ⟨f, _, rfl⟩ := List.mem_map.mp hx
    unfold contribW
    split
    · next hc => exact absurd (h f hc.1) (not_le.mpr hc.2)
    · rfl
  rw [if_pos htw]

/-- Witness for C2: all weights zero, `DEFAULT_SELECTIONS`, scores
`{walkability: 99, transit: 1}` (concrete scenario 2) yield exactly `50`. -/
theorem C2_witness :
    calculatePillowIndex ⟨0, 99, 0, 1, 0, 0, 0⟩ ⟨0, 0, 0, 0, 0, 0, 0⟩
      DEFAULT_SELECTIONS = 50 :=
  C2_zero_weight_neutral_50 ⟨0, 99, 0, 1, 0, 0, 0⟩ ⟨0, 0, 0, 0, 0, 0, 0⟩
    DEFAULT_SELECTIONS (by intro f _; cases f <;> norm_num [weightOf])

namespace Neighborhoods

lemma sum_map_erase_of_eq_zero {α : Type} [DecidableEq α] (f : α → ℚ) (a : α)
    (h : f a = 0) : ∀ l : List α, ((l.erase a).map f).sum = (l.map f).sum := by
  intro l
  induction l with
  | nil => rfl
  | cons b t ih =>
      rw [List.erase_cons]
      by_cases hb : b = a
      · subst hb
        simp [h]
      · have hb' : (b == a) = false := beq_eq_false_iff_ne.mpr hb
        rw [hb']
        simp [ih]

lemma contribW_of_disabled (weights : Weights) (selections : FactorSelections)
    (f : ScoreFactor) (h : isFactorEnabled f selections = false) :
    contribW weights selections f = 0 := by
  unfold contribW
  rw [if_neg]
  rintro ⟨he, -⟩
  rw [h] at he
  exact Bool.false_ne_true he

lemma contribS_of_disabled (scores : Scores) (weights : Weights)
    (selections : FactorSelections) (f : ScoreFactor)
    (h : isFactorEnabled f selections = false) :
    contribS scores weights selections f = 0 := by
  unfold contribS
  rw [if_neg]
  rintro ⟨he, -⟩
  rw [h] at he
  exact Bool.false_ne_true he

lemma weightOf_scale (c : ℚ) (w : Weights) (f : ScoreFactor) :
    weightOf (scaleWeights c w) f = c * weightOf w f := by
  cases f <;> rfl

lemma contribW_scale (c : ℚ) (hc : 0 < c) (w : Weights)
    (selections : FactorSelections) (f : ScoreFactor) :
    contribW (scaleWeights c w) selections f = c * contribW w selections f := by
  unfold contribW
  rw [weightOf_scale]
  by_cases he : isFactorEnabled f selections = true
  · by_cases hw : 0 < weightOf w f
    · rw [if_pos ⟨he, mul_pos hc hw⟩, if_pos ⟨he, hw⟩]
    · have hcw : ¬ 0 < c * weightOf w f := by
        have := mul_nonpos_of_nonneg_of_nonpos (le_of_lt hc) (not_lt.mp hw)
        exact not_lt.mpr this
      rw [if_neg (by rintro ⟨-, h⟩; exact hcw h), if_neg (by rintro ⟨-, h⟩; exact hw h),
        mul_zero]
  · rw [if_neg (by rintro ⟨h, -⟩; exact he h), if_neg (by rintro ⟨h, -⟩; exact he h),
      mul_zero]

lemma contribS_scale (c : ℚ) (hc : 0 < c) (scores : Scores) (w : Weights)
    (selections : FactorSelections) (f : ScoreFactor) :
    contribS scores (scaleWeights c w) selections f =
      c * contribS scores w selections f := by
  unfold contribS
  rw [weightOf_scale]
  by_cases he : isFactorEnabled f selections = true
  · by_cases hw : 0 < weightOf w f
    · rw [if_pos ⟨he, mul_pos hc hw⟩, if_pos ⟨he, hw⟩]
      ring
    · have hcw : ¬ 0 < c * weightOf w f := by
        have := mul_nonpos_of_nonneg_of_nonpos (le_of_lt hc) (not_lt.mp hw)
        exact not_lt.mpr this
      rw [if_neg (by rintro ⟨-, h⟩; exact hcw h), if_neg (by rintro ⟨-, h⟩; exact hw h),
        mul_zero]
  · rw [if_neg (by rintro ⟨h, -⟩; exact he h), if_neg (by rintro ⟨h, -⟩; exact he h),
      mul_zero]

end Neighborhoods

/-- **C4.** For every factor-score map, weight map and selection state, and
every factor `X` that the selection state disables, `calculatePillowIndex`
equals the same computation run over the key list with `X` removed (the loop
iterates over `Object.keys(weights)`, so removing `X` from the weight and
score maps is exactly iterating over `factorKeys.erase X`; the disabled
factor's `continue` contributes nothing to either sum). -/
theorem C4_disabled_factor_removable :
    ∀ (scores : Scores) (weights : Weights) (selections : FactorSelections)
      (X : ScoreFactor),
      isFactorEnabled X selections = false →
      calculatePillowIndex scores weights selections =
        calculatePillowIndexOn (factorKeys.erase X) scores weights selections := by
  intro scores weights selections X hX
  rw [calculatePillowIndex, calculatePillowIndexOn_eq, calculatePillowIndexOn_eq]
  have hW : totalWeightOn (factorKeys.erase X) weights selections =
      totalWeightOn factorKeys weights selections := by
    unfold totalWeightOn
    exact sum_map_erase_of_eq_zero _ X
      (contribW_of_disabled weights selections X hX) _
  have hS : weightedSumOn (factorKeys.erase X) scores weights selections =
      weightedSumOn factorKeys scores weights selections := by
    unfold weightedSumOn
    exact sum_map_erase_of_eq_zero _ X
      (contribS_of_disabled scores weights selections X hX) _
  rw [hW, hS]

/-- Witness for C4: disabling the walkability toggle, the full computation
equals the computation with `walkability` erased from the key list. -/
theorem C4_witness :
    calculatePillowIndex ⟨40, 80, 0, 60, 0, 0, 0⟩ DEFAULT_WEIGHTS
        ⟨⟨true⟩, ⟨false, true, true⟩, ⟨true, true, true, true, true⟩⟩ =
      calculatePillowIndexOn (factorKeys.erase .walkability)
        ⟨40, 80, 0, 60, 0, 0, 0⟩ DEFAULT_WEIGHTS
        ⟨⟨true⟩, ⟨false, true, true⟩, ⟨true, true, true, true, true⟩⟩ :=
  C4_disabled_factor_removable ⟨40, 80, 0, 60, 0, 0, 0⟩ DEFAULT_WEIGHTS
    ⟨⟨true⟩, ⟨false, true, true⟩, ⟨true, true, true, true, true⟩⟩ .walkability
    (by decide)

/-- **C5.** `calculatePillowIndex` is invariant under uniform scaling of all
weights by the same positive constant `c`; the proviso that the same factors
stay enabled with positive weight is automatic, since `c > 0` preserves both
the selection toggles and each weight's sign. -/
theorem C5_uniform_weight_scaling :
    ∀ (scores : Scores) (weights : Weights) (selections : FactorSelections)
      (c : ℚ), 0 < c →
      calculatePillowIndex scores (scaleWeights c weights) selections =
        calculatePillowIndex scores weights selections := by
  intro scores weights selections c hc
  rw [calculatePillowIndex, calculatePillowIndex, calculatePillowIndexOn_eq,
    calculatePillowIndexOn_eq]
  have hW : totalWeightOn factorKeys (scaleWeights c weights) selections =
      c * totalWeightOn factorKeys weights selections := by
    unfold totalWeightOn
    rw [← List.sum_map_mul_left]
    congr 1
    exact List.map_congr_left fun f _ => contribW_scale c hc weights selections f
  have hS : weightedSumOn factorKeys scores (scaleWeights c weights) selections =
      c * weightedSumOn factorKeys scores weights selections := by
    unfold weightedSumOn
    rw [← List.sum_map_mul_left]
    congr 1
    exact List.map_congr_left fun f _ =>
      contribS_scale c hc scores weights selections f
  rw [hW, hS]
  by_cases h0 : totalWeightOn factorKeys weights selections = 0
  · rw [h0, mul_zero]
    simp
  · rw [if_neg (mul_ne_zero (ne_of_gt hc) h0), if_neg h0,
      mul_div_mul_left _ _ (ne_of_gt hc)]

/-- Witness for C5: doubling every default weight leaves the index unchanged. -/
theorem C5_witness :
    calculatePillowIndex ⟨40, 80, 20, 60, 35, 55, 70⟩
        (scaleWeights 2 DEFAULT_WEIGHTS) DEFAULT_SELECTIONS =
      calculatePillowIndex ⟨40, 80, 20, 60, 35, 55, 70⟩ DEFAULT_WEIGHTS
        DEFAULT_SELECTIONS :=
  C5_uniform_weight_scaling ⟨40, 80, 20, 60, 35, 55, 70⟩ DEFAULT_WEIGHTS
    DEFAULT_SELECTIONS 2 (by norm_num)

/-- **C10.** The single `environmentalRisks` factor is included at its full
slider weight whenever at least one of the `floodRisk` / `earthquakeRisk` /
`wildfireRisk` toggles is on (the slider is *not* divided by the number of
enabled risk toggles), so any change confined to those three toggles that
keeps at least one of them on leaves `calculatePillowIndex` unchanged for
every score and weight map. -/
theorem C10_risk_toggles_full_weight :
    (∀ (weights : Weights) (s1 s2 : FactorSelections),
      s1.affordability = s2.affordability →
      s1.livability = s2.livability →
      s1.environmental.airQuality = s2.environmental.airQuality →
      s1.environmental.noise = s2.environmental.noise →
      (s1.environmental.floodRisk || s1.environmental.earthquakeRisk ||
        s1.environmental.wildfireRisk) = true →
      (s2.environmental.floodRisk || s2.environmental.earthquakeRisk ||
        s2.environmental.wildfireRisk) = true →
      ∀ scores : Scores,
        calculatePillowIndex scores weights s1 =
          calculatePillowIndex scores weights s2) ∧
    (∀ (weights : Weights) (s : FactorSelections),
      (s.environmental.floodRisk || s.environmental.earthquakeRisk ||
        s.environmental.wildfireRisk) = true →
      0 < weightOf weights .environmentalRisks →
      contribW weights s .environmentalRisks =
        weightOf weights .environmentalRisks) := by
  constructor
  · intro weights s1 s2 haff hliv hair hnoise hr1 hr2 scores
    have hen : ∀ f, isFactorEnabled f s1 = isFactorEnabled f s2 := by
      intro f
      cases f
      · simp only [isFactorEnabled, haff]
      · simp only [isFactorEnabled, hliv]
      · rfl
      · simp only [isFactorEnabled, hliv]
      · simp only [isFactorEnabled, hr1, hr2]
      · simp only [isFactorEnabled, hnoise]
      · simp only [isFactorEnabled, hair]
    have hcW : contribW weights s1 = contribW weights s2 :=
      funext fun f => by unfold contribW; rw [hen f]
    have hcS : contribS scores weights s1 = contribS scores weights s2 :=
      funext fun f => by unfold contribS; rw [hen f]
    rw [calculatePillowIndex, calculatePillowIndex, calculatePillowIndexOn_eq,
      calculatePillowIndexOn_eq]
    unfold totalWeightOn weightedSumOn
    rw [hcW, hcS]
  · intro weights s hr hw
    unfold contribW
    rw [if_pos ⟨by simpa [isFactorEnabled] using hr, hw⟩]

/-- Witness for C10: turning the flood-risk toggle off while earthquake and
wildfire stay on leaves the index unchanged, and `environmentalRisks` keeps
its full default slider weight 3. -/
theorem C10_witness :
    calculatePillowIndex ⟨40, 80, 20, 60, 35, 55, 70⟩ DEFAULT_WEIGHTS
        DEFAULT_SELECTIONS =
      calculatePillowIndex ⟨40, 80, 20, 60, 35, 55, 70⟩ DEFAULT_WEIGHTS
        ⟨⟨true⟩, ⟨true, true, true⟩, ⟨false, true, true, true, true⟩⟩ ∧
    contribW DEFAULT_WEIGHTS
        ⟨⟨true⟩, ⟨true, true, true⟩, ⟨false, true, true, true, true⟩⟩
        .environmentalRisks =
      weightOf DEFAULT_WEIGHTS .environmentalRisks :=
  ⟨C10_risk_toggles_full_weight.1 DEFAULT_WEIGHTS DEFAULT_SELECTIONS
      ⟨⟨true⟩, ⟨true, true, true⟩, ⟨false, true, true, true, true⟩⟩
      rfl rfl rfl rfl (by decide) (by decide) ⟨40, 80, 20, 60, 35, 55, 70⟩,
    C10_risk_toggles_full_weight.2 DEFAULT_WEIGHTS
      ⟨⟨true⟩, ⟨true, true, true⟩, ⟨false, true, true, true, true⟩⟩
      (by decide) (by norm_num [DEFAULT_WEIGHTS, weightOf])⟩

lemma length_filter_pos_of_mem_true (l : List Bool) (h : true ∈ l) :
    0 < (l.filter (fun b => b)).length := by
  rw [List.length_pos]
  intro hnil
  have : true ∈ l.filter (fun b => b) := List.mem_filter.mpr ⟨h, rfl⟩
  rw [hnil] at this
  exact List.not_mem_nil true this

lemma envSelectedCount_panel_eq_map :
    CensusBlockPanel.envSelectedCount = MapPage.envSelectedCount := rfl

lemma envSelectedCount_pos (s : Neighborhoods.FactorSelections)
    (h : s.environmental.floodRisk = true ∨ s.environmental.earthquakeRisk = true ∨
      s.environmental.wildfireRisk = true ∨ s.environmental.airQuality = true) :
    0 < MapPage.envSelectedCount s := by
  unfold MapPage.envSelectedCount
  refine length_filter_pos_of_mem_true _ ?_
  rcases h with h | h | h | h <;> rw [← h] <;> simp

lemma mapEnvTotal_eq_zero_of_not_pos (w : Neighborhoods.Weights)
    (h : ¬ 0 < MapPage.envTotal w) : MapPage.envTotal w = 0 := by
  unfold MapPage.envTotal at *
  by_cases hw : 0 < w.environmentalRisks
  · rw [if_pos hw] at h
    exact absurd (div_pos hw (by norm_num)) h
  · rw [if_neg hw]

lemma map_env_sub_eq (w : Neighborhoods.Weights) (s : Neighborhoods.FactorSelections)
    (b : Bool) (hb : b = true → 0 < MapPage.envSelectedCount s) :
    (if 0 < MapPage.envTotal w ∧ b = true
      then MapPage.envTotal w / (MapPage.envCount w s : ℚ) else 0) =
      if b = true then MapPage.envTotal w / (MapPage.envSelectedCount s : ℚ) else 0 := by
  by_cases hbt : b = true
  · rw [if_pos hbt]
    by_cases he : 0 < MapPage.envTotal w
    · rw [if_pos ⟨he, hbt⟩]
      unfold MapPage.envCount
      rw [if_pos ⟨he, hb hbt⟩]
    · rw [if_neg (by rintro ⟨h, -⟩; exact he h),
        mapEnvTotal_eq_zero_of_not_pos w he, zero_div]
  · rw [if_neg (by rintro ⟨-, h⟩; exact hbt h), if_neg hbt]

lemma panelEnvCount_eq (s : Neighborhoods.FactorSelections)
    (h : 0 < CensusBlockPanel.envSelectedCount s) :
    CensusBlockPanel.envCount s = CensusBlockPanel.envSelectedCount s := by
  unfold CensusBlockPanel.envCount
  rw [if_neg (Nat.pos_iff_ne_zero.mp h)]

lemma panel_env_sub_eq (w : Neighborhoods.Weights) (s : Neighborhoods.FactorSelections)
    (b : Bool) (hb : b = true → 0 < CensusBlockPanel.envSelectedCount s) :
    (if b = true then CensusBlockPanel.envTotal w / (CensusBlockPanel.envCount s : ℚ)
      else 0) =
      if b = true
      then CensusBlockPanel.envTotal w / (CensusBlockPanel.envSelectedCount s : ℚ)
      else 0 := by
  by_cases hbt : b = true
  · rw [if_pos hbt, if_pos hbt, panelEnvCount_eq s (hb hbt)]
  · rw [if_neg hbt, if_neg hbt]

lemma env_toggle_false_of_count_zero (s : Neighborhoods.FactorSelections)
    (h : MapPage.envSelectedCount s = 0) :
    s.environmental.floodRisk = false ∧ s.environmental.earthquakeRisk = false ∧
      s.environmental.wildfireRisk = false ∧ s.environmental.airQuality = false := by
  refine ⟨?_, ?_, ?_, ?_⟩ <;>
    · rw [Bool.eq_false_iff]
      intro ht
      exact absurd h (Nat.pos_iff_ne_zero.mp (envSelectedCount_pos s (by tauto)))

/-- **C3.** In both `buildColorExpr` and the census-block panel, the
environmental category's (normalized) slider weight is distributed evenly over
the toggled-on sub-factors — an enabled sub-factor receives
`categoryWeight / count(enabled sub-factors)` — a toggled-off sub-factor
receives `0` regardless of the slider, and when no sub-factor is toggled on
all four sub-factor weights are `0`. -/
theorem C3_env_weight_even_distribution :
    ∀ (w : Neighborhoods.Weights) (s : Neighborhoods.FactorSelections),
      (MapPage.wFlood w s = if s.environmental.floodRisk = true
        then MapPage.envTotal w / (MapPage.envSelectedCount s : ℚ) else 0) ∧
      (MapPage.wQuake w s = if s.environmental.earthquakeRisk = true
        then MapPage.envTotal w / (MapPage.envSelectedCount s : ℚ) else 0) ∧
      (MapPage.wFire w s = if s.environmental.wildfireRisk = true
        then MapPage.envTotal w / (MapPage.envSelectedCount s : ℚ) else 0) ∧
      (MapPage.wAir w s = if s.environmental.airQuality = true
        then MapPage.envTotal w / (MapPage.envSelectedCount s : ℚ) else 0) ∧
      (CensusBlockPanel.wFlood w s = if s.environmental.floodRisk = true
        then CensusBlockPanel.envTotal w / (CensusBlockPanel.envSelectedCount s : ℚ)
        else 0) ∧
      (CensusBlockPanel.wQuake w s = if s.environmental.earthquakeRisk = true
        then CensusBlockPanel.envTotal w / (CensusBlockPanel.envSelectedCount s : ℚ)
        else 0) ∧
      (CensusBlockPanel.wFire w s = if s.environmental.wildfireRisk = true
        then CensusBlockPanel.envTotal w / (CensusBlockPanel.envSelectedCount s : ℚ)
        else 0) ∧
      (CensusBlockPanel.wAir w s = if s.environmental.airQuality = true
        then CensusBlockPanel.envTotal w / (CensusBlockPanel.envSelectedCount s : ℚ)
        else 0) ∧
      (MapPage.envSelectedCount s = 0 →
        MapPage.wFlood w s = 0 ∧ MapPage.wQuake w s = 0 ∧ MapPage.wFire w s = 0 ∧
          MapPage.wAir w s = 0 ∧ CensusBlockPanel.wFlood w s = 0 ∧
          CensusBlockPanel.wQuake w s = 0 ∧ CensusBlockPanel.wFire w s = 0 ∧
          CensusBlockPanel.wAir w s = 0) := by
  intro w s
  have hpanel : CensusBlockPanel.envSelectedCount s = MapPage.envSelectedCount s := rfl
  refine ⟨?_, ?_, ?_, ?_, ?_, ?_, ?_, ?_, ?_⟩
  · exact map_env_sub_eq w s _ fun h => envSelectedCount_pos s (Or.inl h)
  · exact map_env_sub_eq w s _ fun h => envSelectedCount_pos s (Or.inr (Or.inl h))
  · exact map_env_sub_eq w s _ fun h =>
      envSelectedCount_pos s (Or.inr (Or.inr (Or.inl h)))
  · exact map_env_sub_eq w s _ fun h =>
      envSelectedCount_pos s (Or.inr (Or.inr (Or.inr h)))
  · exact panel_env_sub_eq w s _ fun h =>
      hpanel ▸ envSelectedCount_pos s (Or.inl h)
  · exact panel_env_sub_eq w s _ fun h =>
      hpanel ▸ envSelectedCount_pos s (Or.inr (Or.inl h))
  · exact panel_env_sub_eq w s _ fun h =>
      hpanel ▸ envSelectedCount_pos s (Or.inr (Or.inr (Or.inl h)))
  · exact panel_env_sub_eq w s _ fun h =>
      hpanel ▸ envSelectedCount_pos s (Or.inr (Or.inr (Or.inr h)))
  · intro h0
    obtain ⟨hf, hq, hw', ha⟩ := env_toggle_false_of_count_zero s h0
    refine ⟨?_, ?_, ?_, ?_, ?_, ?_, ?_, ?_⟩ <;>
      simp [MapPage.wFlood, MapPage.wQuake, MapPage.wFire, MapPage.wAir,
        CensusBlockPanel.wFlood, CensusBlockPanel.wQuake, CensusBlockPanel.wFire,
        CensusBlockPanel.wAir, hf, hq, hw', ha]

/-- Witness for C3: with all four contributing environmental toggles off
(noise may stay on), every environmental sub-factor weight is `0` in both code
paths, at default slider weights. -/
theorem C3_witness :
    MapPage.wFlood Neighborhoods.DEFAULT_WEIGHTS
        ⟨⟨true⟩, ⟨true, true, true⟩, ⟨false, false, false, false, true⟩⟩ = 0 ∧
      CensusBlockPanel.wAir Neighborhoods.DEFAULT_WEIGHTS
        ⟨⟨true⟩, ⟨true, true, true⟩, ⟨false, false, false, false, true⟩⟩ = 0 :=
  have h := (C3_env_weight_even_distribution Neighborhoods.DEFAULT_WEIGHTS
    ⟨⟨true⟩, ⟨true, true, true⟩, ⟨false, false, false, false, true⟩⟩
    ).2.2.2.2.2.2.2.2 (by decide)
  ⟨h.1, h.2.2.2.2.2.2.2⟩

/-- **C6 (counterexample to the claim as stated).** In the census-block panel
path a missing `score_walkability` is *not* substituted with `0.5`: with only
the walkability slider positive, the panel's raw score is `0` for a block whose
`score_walkability` property is missing, but `0.5` for the same block with the
score present as `0.5` — the click handler's `num` conversion defaults
`walkability` (as well as `transit` and `vmt`) to `0`, not `0.5`. -/
theorem C6_counterexample :
    CensusBlockPanel.rawScore (⟨0, 5, 0, 0, 0, 0, 0⟩ : Neighborhoods.Weights)
        Neighborhoods.DEFAULT_SELECTIONS
        (MapPage.toCensusBlockData
          ⟨some (7/10), none, some (6/10), some (5/10), some (4/10),
            some (3/10), some (2/10), some (1/10), some (1/2)⟩) = 0 ∧
      CensusBlockPanel.rawScore (⟨0, 5, 0, 0, 0, 0, 0⟩ : Neighborhoods.Weights)
        Neighborhoods.DEFAULT_SELECTIONS
        (MapPage.toCensusBlockData
          ⟨some (7/10), some (1/2), some (6/10), some (5/10), some (4/10),
            some (3/10), some (2/10), some (1/10), some (1/2)⟩) = 1/2 ∧
      (0 : ℚ) ≠ 1/2 := by
  refine ⟨?_, ?_, by norm_num⟩ <;>
    norm_num [CensusBlockPanel.rawScore, CensusBlockPanel.denom,
      CensusBlockPanel.wPrice, CensusBlockPanel.wWalk, CensusBlockPanel.wTransit,
      CensusBlockPanel.wTraffic, CensusBlockPanel.actualEnv,
      CensusBlockPanel.wFlood, CensusBlockPanel.wQuake, CensusBlockPanel.wFire,
      CensusBlockPanel.wAir, CensusBlockPanel.envTotal, CensusBlockPanel.envCount,
      CensusBlockPanel.envSelectedCount, MapPage.toCensusBlockData, MapPage.num,
      MapPage.numDef, Neighborhoods.DEFAULT_SELECTIONS, List.filter]

/-- **C6 (amended).** A missing score never crashes or skips a factor, but
the substituted default differs by path: in `buildColorExpr` a missing/null
score goes through `to-number(null) = 0`, so it is substituted with `0` (the
result is unchanged if the property is instead present with value `0`) and
the written `0.5` coalesce fallback is dead; in the hover composite a missing
score is substituted with the neutral `0.5` via `n(v, 0.5)`; in the
census-block panel path the click handler defaults missing `price` / `flood` /
`quake` / `fire` / `air` scores to `0.5` but missing `walkability` /
`transit` / `vmt` scores (and `composite`) to `0`.  In every path the weights
— hence the denominator — never depend on the score properties at all. -/
theorem C6_missing_score_defaults :
    ∀ (w : Neighborhoods.Weights) (s : Neighborhoods.FactorSelections)
      (p : MapPage.BlockProps),
      (MapPage.baseScore w s { p with score_price := none } =
        MapPage.baseScore w s { p with score_price := some 0 }) ∧
      (MapPage.baseScore w s { p with score_walkability := none } =
        MapPage.baseScore w s { p with score_walkability := some 0 }) ∧
      (MapPage.baseScore w s { p with score_transit := none } =
        MapPage.baseScore w s { p with score_transit := some 0 }) ∧
      (MapPage.baseScore w s { p with score_vmt := none } =
        MapPage.baseScore w s { p with score_vmt := some 0 }) ∧
      (MapPage.baseScore w s { p with score_flood_safe := none } =
        MapPage.baseScore w s { p with score_flood_safe := some 0 }) ∧
      (MapPage.baseScore w s { p with score_quake_safe := none } =
        MapPage.baseScore w s { p with score_quake_safe := some 0 }) ∧
      (MapPage.baseScore w s { p with score_wildfire_safe := none } =
        MapPage.baseScore w s { p with score_wildfire_safe := some 0 }) ∧
      (MapPage.baseScore w s { p with score_air_safe := none } =
        MapPage.baseScore w s { p with score_air_safe := some 0 }) ∧
      (MapPage.dynamicComposite w s { p with score_price := none } =
        MapPage.dynamicComposite w s { p with score_price := some (1/2) }) ∧
      (MapPage.dynamicComposite w s { p with score_walkability := none } =
        MapPage.dynamicComposite w s { p with score_walkability := some (1/2) }) ∧
      (MapPage.dynamicComposite w s { p with score_transit := none } =
        MapPage.dynamicComposite w s { p with score_transit := some (1/2) }) ∧
      (MapPage.dynamicComposite w s { p with score_vmt := none } =
        MapPage.dynamicComposite w s { p with score_vmt := some (1/2) }) ∧
      (MapPage.dynamicComposite w s { p with score_flood_safe := none } =
        MapPage.dynamicComposite w s { p with score_flood_safe := some (1/2) }) ∧
      (MapPage.dynamicComposite w s { p with score_quake_safe := none } =
        MapPage.dynamicComposite w s { p with score_quake_safe := some (1/2) }) ∧
      (MapPage.dynamicComposite w s { p with score_wildfire_safe := none } =
        MapPage.dynamicComposite w s { p with score_wildfire_safe := some (1/2) }) ∧
      (MapPage.dynamicComposite w s { p with score_air_safe := none } =
        MapPage.dynamicComposite w s { p with score_air_safe := some (1/2) }) ∧
      (MapPage.toCensusBlockData { p with score_price := none }).price = 1/2 ∧
      (MapPage.toCensusBlockData { p with score_flood_safe := none }).floodSafe = 1/2 ∧
      (MapPage.toCensusBlockData { p with score_quake_safe := none }).quakeSafe = 1/2 ∧
      (MapPage.toCensusBlockData { p with score_wildfire_safe := none }).fireSafe = 1/2 ∧
      (MapPage.toCensusBlockData { p with score_air_safe := none }).airSafe = 1/2 ∧
      (MapPage.toCensusBlockData { p with score_walkability := none }).walkability = 0 ∧
      (MapPage.toCensusBlockData { p with score_transit := none }).transit = 0 ∧
      (MapPage.toCensusBlockData { p with score_vmt := none }).vmt = 0 ∧
      (MapPage.toCensusBlockData { p with composite := none }).composite = 0 := by
  intro w s p
  refine ⟨?_, ?_, ?_, ?_, ?_, ?_, ?_, ?_, ?_, ?_, ?_, ?_, ?_, ?_, ?_, ?_,
    ?_, ?_, ?_, ?_, ?_, ?_, ?_, ?_, ?_⟩ <;>
    simp [MapPage.baseScore, MapPage.dynamicComposite, MapPage.coalesce,
      MapPage.toNumber, MapPage.toCensusBlockData, MapPage.num, MapPage.numDef]

/-- **C9 (counterexample to the claim as stated).** With every slider at `0`
(no preference expressed) the panel falls back to the block's composite, but
the *displayed* score is `Math.round(rawScore * 100)`: two blocks with the
distinct stored composites `0.701` and `0.702` both display `70`, so regions
with different stored composites do not always display different scores. -/
theorem C9_counterexample :
    CensusBlockPanel.locusIndex (⟨0, 0, 0, 0, 0, 0, 0⟩ : Neighborhoods.Weights)
        Neighborhoods.DEFAULT_SELECTIONS
        ⟨0, 0, 0, 701/1000, 0, 0, 0, 0, 0⟩ = 70 ∧
      CensusBlockPanel.locusIndex (⟨0, 0, 0, 0, 0, 0, 0⟩ : Neighborhoods.Weights)
        Neighborhoods.DEFAULT_SELECTIONS
        ⟨0, 0, 0, 702/1000, 0, 0, 0, 0, 0⟩ = 70 ∧
      (701/1000 : ℚ) ≠ 702/1000 := by
  refine ⟨?_, ?_, by norm_num⟩ <;>
    norm_num [CensusBlockPanel.locusIndex, CensusBlockPanel.rawScore,
      CensusBlockPanel.denom, CensusBlockPanel.wPrice, CensusBlockPanel.wWalk,
      CensusBlockPanel.wTransit, CensusBlockPanel.wTraffic,
      CensusBlockPanel.actualEnv, CensusBlockPanel.wFlood, CensusBlockPanel.wQuake,
      CensusBlockPanel.wFire, CensusBlockPanel.wAir, CensusBlockPanel.envTotal,
      CensusBlockPanel.envCount, CensusBlockPanel.envSelectedCount,
      Neighborhoods.DEFAULT_SELECTIONS, List.filter, Neighborhoods.jsRound]

/-- **C9 (amended).** Whenever the effective normalized weight denominator is
`0`, all three census-block scoring paths fall back to the region's
precomputed `composite` property (with each path's own missing-value default:
`0` in `buildColorExpr` and the click handler, `0.5` in the hover popup) — not
to the fixed neutral `50`; two regions with different stored composites can
therefore display different scores (e.g. composites `0.3` and `0.7` display
`30` and `70`), though composites that agree after display rounding show the
same integer. -/
theorem C9_zero_denom_composite_fallback :
    (∀ (w : Neighborhoods.Weights) (s : Neighborhoods.FactorSelections)
      (b : CensusBlockPanel.CensusBlockData),
      CensusBlockPanel.denom w s = 0 →
      CensusBlockPanel.rawScore w s b = b.composite) ∧
    (∀ (w : Neighborhoods.Weights) (s : Neighborhoods.FactorSelections)
      (p : MapPage.BlockProps),
      MapPage.denom w s = 0 →
      MapPage.baseScore w s p = MapPage.coalesce p.composite 0) ∧
    (∀ (w : Neighborhoods.Weights) (s : Neighborhoods.FactorSelections)
      (p : MapPage.BlockProps),
      MapPage.dyn_denom w s = 0 →
      MapPage.dynamicComposite w s p = MapPage.coalesce p.composite (1/2)) ∧
    (CensusBlockPanel.locusIndex (⟨0, 0, 0, 0, 0, 0, 0⟩ : Neighborhoods.Weights)
        Neighborhoods.DEFAULT_SELECTIONS ⟨0, 0, 0, 3/10, 0, 0, 0, 0, 0⟩ = 30 ∧
      CensusBlockPanel.locusIndex (⟨0, 0, 0, 0, 0, 0, 0⟩ : Neighborhoods.Weights)
        Neighborhoods.DEFAULT_SELECTIONS ⟨0, 0, 0, 7/10, 0, 0, 0, 0, 0⟩ = 70) := by
  refine ⟨?_, ?_, ?_, ?_, ?_⟩
  · intro w s b h
    unfold CensusBlockPanel.rawScore
    rw [if_pos h]
  · intro w s p h
    unfold MapPage.baseScore
    rw [if_pos h]
  · intro w s p h
    unfold MapPage.dynamicComposite
    rw [if_pos h]
  all_goals
    norm_num [CensusBlockPanel.locusIndex, CensusBlockPanel.rawScore,
      CensusBlockPanel.denom, CensusBlockPanel.wPrice, CensusBlockPanel.wWalk,
      CensusBlockPanel.wTransit, CensusBlockPanel.wTraffic,
      CensusBlockPanel.actualEnv, CensusBlockPanel.wFlood, CensusBlockPanel.wQuake,
      CensusBlockPanel.wFire, CensusBlockPanel.wAir, CensusBlockPanel.envTotal,
      CensusBlockPanel.envCount, CensusBlockPanel.envSelectedCount,
      Neighborhoods.DEFAULT_SELECTIONS, List.filter, Neighborhoods.jsRound]

/-- Witness for C9: with every slider at `0` the panel denominator is `0` and
the raw score equals the block's stored composite (here `0.42`). -/
theorem C9_witness :
    CensusBlockPanel.rawScore (⟨0, 0, 0, 0, 0, 0, 0⟩ : Neighborhoods.Weights)
        Neighborhoods.DEFAULT_SELECTIONS ⟨1, 1, 1, 42/100, 1, 1, 1, 1, 1⟩ =
      42/100 :=
  C9_zero_denom_composite_fallback.1 (⟨0, 0, 0, 0, 0, 0, 0⟩ : Neighborhoods.Weights)
    Neighborhoods.DEFAULT_SELECTIONS ⟨1, 1, 1, 42/100, 1, 1, 1, 1, 1⟩
    (by norm_num [CensusBlockPanel.denom, CensusBlockPanel.wPrice,
      CensusBlockPanel.wWalk, CensusBlockPanel.wTransit, CensusBlockPanel.wTraffic,
      CensusBlockPanel.actualEnv, CensusBlockPanel.wFlood, CensusBlockPanel.wQuake,
      CensusBlockPanel.wFire, CensusBlockPanel.wAir, CensusBlockPanel.envTotal,
      Neighborhoods.DEFAULT_SELECTIONS])

/-- **C7 (counterexample to the claim as stated).** At the interior stop
boundary `score = 70` of the earlier `getScoreColor`, the two adjacent pieces
do not agree on the alpha channel: the third piece emits alpha `0.75` and the
fourth emits `0.8`, and no cutoff is documented there. -/
theorem C7_counterexample : (Part005.seg3 70).a ≠ (Part005.seg4 70).a := by
  norm_num [Part005.seg3, Part005.seg4]

/-- **C7 (amended).** Each index-to-color mapping is deterministic (a pure
function of the index), and at every interior stop boundary the rounded R, G
and B channels computed by the two adjacent pieces agree exactly — at 30, 50
and 70 for the earlier `getScoreColor` and at 25, 45, 65 and 82 for
`pillowIndexToHex` — and the alpha channel agrees at 30 and 50; but at the
undocumented boundary 70 the earlier `getScoreColor`'s alpha channel jumps
from `0.75` to `0.8`. -/
theorem C7_color_continuity :
    (∀ q : ℚ, Part005.getScoreColor q = Part005.getScoreColor q ∧
      Part008.pillowIndexToHex q = Part008.pillowIndexToHex q ∧
      Neighborhoods.getScoreColor q = Neighborhoods.getScoreColor q) ∧
    ((Part005.seg1 30).r = (Part005.seg2 30).r ∧
      (Part005.seg1 30).g = (Part005.seg2 30).g ∧
      (Part005.seg1 30).b = (Part005.seg2 30).b ∧
      (Part005.seg1 30).a = (Part005.seg2 30).a) ∧
    ((Part005.seg2 50).r = (Part005.seg3 50).r ∧
      (Part005.seg2 50).g = (Part005.seg3 50).g ∧
      (Part005.seg2 50).b = (Part005.seg3 50).b ∧
      (Part005.seg2 50).a = (Part005.seg3 50).a) ∧
    ((Part005.seg3 70).r = (Part005.seg4 70).r ∧
      (Part005.seg3 70).g = (Part005.seg4 70).g ∧
      (Part005.seg3 70).b = (Part005.seg4 70).b ∧
      (Part005.seg3 70).a = 3/4 ∧ (Part005.seg4 70).a = 4/5) ∧
    (Part008.stopInterp 0 25 (20, 0, 80) (80, 20, 160) 25 =
      Part008.stopInterp 25 45 (80, 20, 160) (208, 30, 40) 25) ∧
    (Part008.stopInterp 25 45 (80, 20, 160) (208, 30, 40) 45 =
      Part008.stopInterp 45 65 (208, 30, 40) (224, 140, 20) 45) ∧
    (Part008.stopInterp 45 65 (208, 30, 40) (224, 140, 20) 65 =
      Part008.stopInterp 65 82 (224, 140, 20) (255, 215, 0) 65) ∧
    (Part008.stopInterp 65 82 (224, 140, 20) (255, 215, 0) 82 =
      Part008.stopInterp 82 100 (255, 215, 0) (255, 250, 224) 82) := by
  refine ⟨fun q => ⟨rfl, rfl, rfl⟩, ?_, ?_, ?_, ?_, ?_, ?_, ?_⟩ <;>
    norm_num [Part005.seg1, Part005.seg2, Part005.seg3, Part005.seg4,
      Part008.stopInterp, Neighborhoods.jsRound, Prod.ext_iff]

set_option maxRecDepth 40000 in
lemma toggleSelection_keeps_counts :
    ∀ (s : Neighborhoods.FactorSelections) (k : FilterSidebar.ToggleOption),
      1 ≤ FilterSidebar.countSelectedLivability s →
      1 ≤ FilterSidebar.countSelectedEnvironmental s →
      1 ≤ FilterSidebar.countSelectedLivability (FilterSidebar.toggleSelection s k) ∧
        1 ≤ FilterSidebar.countSelectedEnvironmental
          (FilterSidebar.toggleSelection s k) := by
  decide

/-- **C8.** Every selection state reachable from `DEFAULT_SELECTIONS` through
the sidebar's `toggleSelection` keeps at least one enabled sub-factor in each
of the livability and environmental categories, and the mutator is a no-op
whenever the requested toggle would disable the last enabled sub-factor of
either category. -/
theorem C8_at_least_one_selected :
    (∀ s : Neighborhoods.FactorSelections, FilterSidebar.Reachable s →
      1 ≤ FilterSidebar.countSelectedLivability s ∧
        1 ≤ FilterSidebar.countSelectedEnvironmental s) ∧
    (∀ (s : Neighborhoods.FactorSelections) (k : FilterSidebar.ToggleOption),
      ((FilterSidebar.categoryOf k = .livability ∧
          FilterSidebar.getToggle s k = true ∧
          FilterSidebar.countSelectedLivability s = 1) ∨
        (FilterSidebar.categoryOf k = .environmental ∧
          FilterSidebar.getToggle s k = true ∧
          FilterSidebar.countSelectedEnvironmental s = 1)) →
      FilterSidebar.toggleSelection s k = s) := by
  constructor
  · intro s hs
    induction hs with
    | start => decide
    | step s k _ ih => exact toggleSelection_keeps_counts s k ih.1 ih.2
  · intro s k h
    simp only [FilterSidebar.toggleSelection]
    rcases h with ⟨h1, h2, h3⟩ | ⟨h1, h2, h3⟩
    · rw [if_pos ⟨h1, h2, h3⟩]
    · have hnl : ¬ (FilterSidebar.categoryOf k = .livability ∧
          FilterSidebar.getToggle s k = true ∧
          FilterSidebar.countSelectedLivability s = 1) := by
        rintro ⟨hc, -, -⟩
        rw [h1] at hc
        exact absurd hc (by decide)
      rw [if_neg hnl, if_pos ⟨h1, h2, h3⟩]

/-- Witness for C8: the default state satisfies the invariant, and toggling
walkability off when it is the last enabled livability sub-factor is a no-op. -/
theorem C8_witness :
    (1 ≤ FilterSidebar.countSelectedLivability Neighborhoods.DEFAULT_SELECTIONS ∧
      1 ≤ FilterSidebar.countSelectedEnvironmental
        Neighborhoods.DEFAULT_SELECTIONS) ∧
    FilterSidebar.toggleSelection
        ⟨⟨true⟩, ⟨true, false, false⟩, ⟨true, true, true, true, true⟩⟩
        .walkability =
      ⟨⟨true⟩, ⟨true, false, false⟩, ⟨true, true, true, true, true⟩⟩ :=
  ⟨C8_at_least_one_selected.1 Neighborhoods.DEFAULT_SELECTIONS
      FilterSidebar.Reachable.start,
    C8_at_least_one_selected.2
      ⟨⟨true⟩, ⟨true, false, false⟩, ⟨true, true, true, true, true⟩⟩
      .walkability (Or.inl (by refine ⟨rfl, rfl, ?_⟩; decide))⟩
